import Mathlib

/-!
Verification of the filter-aggregate pipeline shared by the dashboard scripts
(ex2.py / DV_class.py Winter Olympics explorer, Ex6.py West Nile virus map,
ex3.py CO2/population choropleth, ex4.py sheep dominance network).

The pandas dataframes are embedded shallowly: a cell is a `Value` (integer,
string, or the missing marker `na` that pandas writes as NaN), a row is an
association list from column names to values, and a dataframe carries its
column list and its rows.  The pandas operations used by the scripts are
translated directly:

* boolean-mask filtering (`df[(df[c] >= lo) & ... & (df[c].isin(vs))]`)
  becomes `applyFilters` over a list of `FilterSpec`s;
* `df.groupby(cols).size()` becomes `groupbySize`; following pandas'
  default `dropna=True`, rows whose grouping key contains the missing
  marker are excluded from the groups;
* `df.groupby(cols)[v].sum()` becomes `groupbySum` (pandas sums with
  `skipna`, so a missing value contributes nothing);
* `pd.to_numeric(col, errors="coerce")` becomes `coerceColumn`;
* point lookup in an aggregate becomes `lookup` returning an `Option`.
-/

inductive Value where
  | int (n : Int)
  | str (s : String)
  | na
deriving DecidableEq, Repr

abbrev Record := List (String × Value)

/-- Column access on a row: the value bound to the first occurrence of the
column name, or the missing marker when the column is absent. -/
def getCol (r : Record) (c : String) : Value :=
  match r.find? (fun p => p.1 = c) with
  | some p => p.2
  | none => Value.na

structure DataFrame where
  cols : List String
  rows : List Record
deriving DecidableEq, Repr

/-- One sidebar filter of the scripts: either a closed range over an ordered
column (the year select-slider) or a membership test (a multiselect bound to
`Series.isin`). -/
inductive FilterSpec where
  | range (col : String) (lo hi : Int)
  | member (col : String) (vals : List Value)
deriving DecidableEq, Repr

/-- `lo <= v <= hi` as pandas evaluates it on the mask: comparisons against
the missing marker (NaN) are false. -/
def valueInRange : Value → Int → Int → Bool
  | Value.int n, lo, hi => decide (lo ≤ n) && decide (n ≤ hi)
  | _, _, _ => false

/-- Whether a row satisfies one filter, mirroring one conjunct of the
boolean mask built in ex2.py lines 48-54. -/
def passes (r : Record) : FilterSpec → Bool
  | FilterSpec.range c lo hi => valueInRange (getCol r c) lo hi
  | FilterSpec.member c vals => vals.contains (getCol r c)

/-- `df[(mask1) & (mask2) & ...]`: keep the rows satisfying every filter. -/
def applyFilters (df : DataFrame) (fs : List FilterSpec) : DataFrame :=
  { cols := df.cols, rows := df.rows.filter (fun r => fs.all (passes r)) }

/-- The tuple of grouping-column values of a row. -/
def keyTuple (r : Record) (gcols : List String) : List Value :=
  gcols.map (getCol r)

/-- Whether the grouping key of a row contains the missing marker; pandas
`groupby` (default `dropna=True`) excludes such rows. -/
def hasNaKey (r : Record) (gcols : List String) : Bool :=
  (keyTuple r gcols).contains Value.na

/-- `df.groupby(gcols).size()`: rows with a missing grouping value are
dropped, the remaining rows are grouped by their key tuple, and each group
is reduced to its size. -/
def groupbySize (rows : List Record) (gcols : List String) :
    List (List Value × Nat) :=
  let kept := rows.filter (fun r => !(hasNaKey r gcols))
  (kept.map (fun r => keyTuple r gcols)).dedup.map
    (fun k => (k, (kept.filter (fun r => keyTuple r gcols = k)).length))

/-- Integer reading of a cell for summation; the missing marker contributes
nothing (pandas sums with `skipna=True`). -/
def intOf : Value → Int
  | Value.int n => n
  | _ => 0

/-- `df.groupby(gcols)[vcol].sum()` as used for `county_agg` and
`weekly_agg` in Ex6.py: same `dropna` grouping, each group reduced to the
sum of its value column. -/
def groupbySum (rows : List Record) (gcols : List String) (vcol : String) :
    List (List Value × Int) :=
  let kept := rows.filter (fun r => !(hasNaKey r gcols))
  kept.map (fun r => keyTuple r gcols) |>.dedup.map
    (fun k => (k, ((kept.filter (fun r => keyTuple r gcols = k)).map
      (fun r => intOf (getCol r vcol))).sum))

/-- Point lookup in an aggregate (the `breakdown_full[(Year == y) &
(Country == c)]` step of DV_class.py / ex2.py): the count stored under the
key, or absent. -/
def lookup (agg : List (List Value × Nat)) (k : List Value) : Option Nat :=
  (agg.find? (fun p => p.1 = k)).map (fun p => p.2)

def isDigitChar (c : Char) : Bool :=
  decide ('0' ≤ c) && decide (c ≤ '9')

/-- Parse a nonempty all-digit character list as a natural number. -/
def parseNatDigits : List Char → Option Nat
  | [] => none
  | cs =>
    if cs.all isDigitChar then
      some (cs.foldl (fun acc c => 10 * acc + (c.toNat - 48)) 0)
    else none

/-- Integer reading of a string, as `pd.to_numeric` accepts an integer
literal with an optional leading minus sign; anything else fails. -/
def parseIntString (cs : List Char) : Option Int :=
  match cs with
  | [] => none
  | c :: rest =>
    if c = Char.ofNat 45 then (parseNatDigits rest).map (fun n => -(n : Int))
    else (parseNatDigits cs).map (fun n => (n : Int))

/-- `pd.to_numeric(v, errors="coerce")` on one cell: integers pass through,
integer-literal strings parse, anything else becomes the missing marker. -/
def toNumericCoerce : Value → Value
  | Value.int n => Value.int n
  | Value.str s =>
    match parseIntString s.data with
    | some n => Value.int n
    | none => Value.na
  | Value.na => Value.na

/-- Rewrite the named column of one row through the coercion. -/
def coerceRow (c : String) (r : Record) : Record :=
  r.map (fun p => if p.1 = c then (p.1, toNumericCoerce p.2) else p)

/-- `df[c] = pd.to_numeric(df[c], errors="coerce")` (Ex6.py line 19):
rewrite the named column in place in every row; no row is dropped. -/
def coerceColumn (df : DataFrame) (c : String) : DataFrame :=
  { cols := df.cols, rows := df.rows.map (coerceRow c) }

/-- The one-row West Nile virus frame whose week field holds a non-numeric
token, used to exercise the coercion path of Ex6.py. -/
def exWnvRow : Record :=
  [("Year", Value.int 2004), ("Week_Reported", Value.str "N/A"),
   ("County", Value.str "Kern"), ("id", Value.int 6029),
   ("Positive_Cases", Value.int 3)]

def exWnv : DataFrame :=
  { cols := ["Year", "Week_Reported", "County", "id", "Positive_Cases"]
    rows := [exWnvRow] }

def olymRec (y : Int) (c m : String) : Record :=
  [("Year", Value.int y), ("Country", Value.str c), ("Medal", Value.str m)]

/-- The three-record Olympics frame of the spec's example scenario. -/
def exOlympics : DataFrame :=
  { cols := ["Year", "Country", "Medal"]
    rows := [olymRec 2002 "USA" "Gold", olymRec 2002 "USA" "Silver",
             olymRec 2006 "CAN" "Gold"] }

lemma valueInRange_iff (v : Value) (lo hi : Int) :
    valueInRange v lo hi = true ↔
      ∃ n : Int, v = Value.int n ∧ lo ≤ n ∧ n ≤ hi := by
  cases v <;> simp [valueInRange]

lemma mem_applyFilters (df : DataFrame) (fs : List FilterSpec) (r : Record) :
    r ∈ (applyFilters df fs).rows ↔
      r ∈ df.rows ∧ ∀ f ∈ fs, passes r f = true := by
  simp [applyFilters, List.mem_filter, List.all_eq_true]

lemma sum_ite_eq_one {β : Type} [DecidableEq β] (d : List β) (b : β)
    (hnd : d.Nodup) (hb : b ∈ d) :
    (d.map fun k => if b = k then 1 else 0).sum = 1 := by
  induction d with
  | nil => cases hb
  | cons a as ih =>
    rcases List.mem_cons.mp hb with h | h
    · subst h
      have hnotin : b ∉ as := (List.nodup_cons.mp hnd).1
      have hz : (as.map fun k => if b = k then 1 else 0).sum = 0 := by
        apply List.sum_eq_zero
        intro n hn
        obtain ⟨k, hk, rfl⟩ := List.mem_map.mp hn
        have hne : b ≠ k := fun he => hnotin (he ▸ hk)
        simp [hne]
      simp [hz]
    · have hne : b ≠ a := fun he => (List.nodup_cons.mp hnd).1 (he ▸ h)
      simp [hne, ih (List.nodup_cons.mp hnd).2 h]

/-- Partition counting: summing, over a duplicate-free key list `d` covering
the image of `g`, the number of elements of `l` mapped to each key, counts
every element of `l` exactly once. -/
lemma sum_filter_eq_lengths {α β : Type} [DecidableEq β] (d : List β) (g : α → β)
    (hnd : d.Nodup) :
    ∀ l : List α, (∀ x ∈ l, g x ∈ d) →
      (d.map fun k => (l.filter (fun x => g x = k)).length).sum = l.length := by
  intro l
  induction l with
  | nil => intro _; simp
  | cons a as ih =>
    intro hmem
    have ha : g a ∈ d := hmem a (List.mem_cons_self a as)
    have hmem2 : ∀ x ∈ as, g x ∈ d := fun x hx => hmem x (List.mem_cons_of_mem a hx)
    have hfun : (fun k => ((a :: as).filter (fun x => g x = k)).length)
        = fun k => ((if g a = k then 1 else 0) + (as.filter (fun x => g x = k)).length) := by
      funext k
      by_cases h : g a = k <;> simp [List.filter_cons, h, Nat.add_comm]
    rw [hfun, List.sum_map_add, sum_ite_eq_one d (g a) hnd ha, ih hmem2]
    simp [Nat.add_comm]

lemma sum_counts_groupbySize (rows : List Record) (gcols : List String) :
    ((groupbySize rows gcols).map (fun p => p.2)).sum
      = (rows.filter (fun r => !(hasNaKey r gcols))).length := by
  unfold groupbySize
  rw [List.map_map]
  exact sum_filter_eq_lengths
    ((List.map (fun r => keyTuple r gcols)
      (rows.filter (fun r => !(hasNaKey r gcols)))).dedup)
    (fun r => keyTuple r gcols) (List.nodup_dedup _) _
    (fun r hr => List.mem_dedup.mpr (List.mem_map_of_mem _ hr))

/-- C1 (amended): for every filtered view and choice of grouping columns,
the sum of the per-group counts of the size aggregation equals the number of
view records whose grouping key contains no missing value; in particular,
when no view record has a missing grouping value the sum equals the length
of the view.  (Records whose grouping key holds the missing marker are
excluded by the grouping, so the original claim's parenthetical about such
records does not hold.) -/
theorem C1_aggregate_counts_total (df : DataFrame) (fs : List FilterSpec)
    (gcols : List String) :
    ((groupbySize (applyFilters df fs).rows gcols).map (fun p => p.2)).sum
        = ((applyFilters df fs).rows.filter (fun r => !(hasNaKey r gcols))).length
      ∧ ((∀ r ∈ (applyFilters df fs).rows, hasNaKey r gcols = false) →
          ((groupbySize (applyFilters df fs).rows gcols).map (fun p => p.2)).sum
            = (applyFilters df fs).rows.length) := by
  refine ⟨sum_counts_groupbySize _ _, fun h => ?_⟩
  have he : (applyFilters df fs).rows.filter (fun r => !(hasNaKey r gcols))
      = (applyFilters df fs).rows :=
    List.filter_eq_self.mpr (fun r hr => by simp [h r hr])
  rw [sum_counts_groupbySize, he]

theorem C1_aggregate_counts_total_witness :
    ((groupbySize (applyFilters exOlympics []).rows ["Year"]).map
      (fun p => p.2)).sum = (applyFilters exOlympics []).rows.length :=
  (C1_aggregate_counts_total exOlympics [] ["Year"]).2 (by decide)

/-- C1 fails as stated: after the Ex6.py coercion the one-record view holds
a missing week value, and grouping by the week column produces an aggregate
whose counts sum to 0, not to the view's length 1 — the record is dropped. -/
theorem C1_counterexample :
    ((groupbySize (applyFilters (coerceColumn exWnv "Week_Reported") []).rows
        ["Week_Reported"]).map (fun p => p.2)).sum
      ≠ (applyFilters (coerceColumn exWnv "Week_Reported") []).rows.length := by
  decide

/-- C2: membership in the filtered view is exactly the conjunction of all
filters over the source rows; a range filter passes exactly the rows whose
column value is an integer within the inclusive bounds; a membership filter
passes exactly the rows whose column value lies in the selected subset; an
inverted range (`hi < lo`) or an empty selected subset forces an empty view
(and the total function never errors). -/
theorem C2_applyFilters_semantics (df : DataFrame) (fs : List FilterSpec) :
    (∀ r, r ∈ (applyFilters df fs).rows ↔
        r ∈ df.rows ∧ ∀ f ∈ fs, passes r f = true)
  ∧ (∀ (r : Record) (c : String) (lo hi : Int),
        passes r (FilterSpec.range c lo hi) = true ↔
          ∃ n : Int, getCol r c = Value.int n ∧ lo ≤ n ∧ n ≤ hi)
  ∧ (∀ (r : Record) (c : String) (vals : List Value),
        passes r (FilterSpec.member c vals) = true ↔ getCol r c ∈ vals)
  ∧ (∀ (c : String) (lo hi : Int), hi < lo → FilterSpec.range c lo hi ∈ fs →
        (applyFilters df fs).rows = [])
  ∧ (∀ c : String, FilterSpec.member c [] ∈ fs →
        (applyFilters df fs).rows = []) := by
  refine ⟨fun r => mem_applyFilters df fs r,
    fun r c lo hi => by simp [passes, valueInRange_iff],
    fun r c vals => by simp [passes, List.contains, List.elem_iff],
    fun c lo hi hlt hmem => ?_, fun c hmem => ?_⟩
  · apply List.filter_eq_nil_iff.mpr
    intro r _ hall
    rcases (valueInRange_iff (getCol r c) lo hi).mp
      (List.all_eq_true.mp hall _ hmem) with ⟨n, _, h1, h2⟩
    omega
  · apply List.filter_eq_nil_iff.mpr
    intro r _ hall
    have := List.all_eq_true.mp hall _ hmem
    simp [passes] at this

theorem C2_applyFilters_semantics_witness :
    (applyFilters exOlympics [FilterSpec.range "Year" 2005 2003]).rows = []
      ∧ (applyFilters exOlympics [FilterSpec.member "Country" []]).rows = [] :=
  ⟨(C2_applyFilters_semantics exOlympics
      [FilterSpec.range "Year" 2005 2003]).2.2.2.1 "Year" 2005 2003
      (by decide) (by decide),
   (C2_applyFilters_semantics exOlympics
      [FilterSpec.member "Country" []]).2.2.2.2 "Country" (by decide)⟩

/-- C3: the filtered view is a subsequence of the dataset (same column list),
and re-filtering an already filtered view with the same filters changes
nothing (idempotence); `applyFilters` is a pure function of its arguments. -/
theorem C3_applyFilters_sublist_idempotent (df : DataFrame) (fs : List FilterSpec) :
    List.Sublist (applyFilters df fs).rows df.rows
      ∧ (applyFilters df fs).cols = df.cols
      ∧ applyFilters (applyFilters df fs) fs = applyFilters df fs := by
  refine ⟨List.filter_sublist _, rfl, ?_⟩
  unfold applyFilters
  congr 1
  exact List.filter_eq_self.mpr (fun r hr => (List.mem_filter.mp hr).2)

/-- C9: the spec's example scenario, run through the embedded pipeline:
the range filter Year in [2002, 2002] keeps exactly 2 of the 3 records;
grouping that view by (Year, Country) yields the single entry
((2002, USA), 2); grouping by (Year, Country, Medal) yields the entries
((2002, USA, Gold), 1) and ((2002, USA, Silver), 1). -/
theorem C9_example_scenario :
    (applyFilters exOlympics [FilterSpec.range "Year" 2002 2002]).rows.length = 2
  ∧ groupbySize (applyFilters exOlympics [FilterSpec.range "Year" 2002 2002]).rows
      ["Year", "Country"] = [([Value.int 2002, Value.str "USA"], 2)]
  ∧ groupbySize (applyFilters exOlympics [FilterSpec.range "Year" 2002 2002]).rows
      ["Year", "Country", "Medal"]
      = [([Value.int 2002, Value.str "USA", Value.str "Gold"], 1),
         ([Value.int 2002, Value.str "USA", Value.str "Silver"], 1)] := by
  decide

lemma getCol_coerceRow_same (c : String) :
    ∀ r : Record, getCol (coerceRow c r) c = toNumericCoerce (getCol r c) := by
  intro r
  induction r with
  | nil => simp [coerceRow, getCol, toNumericCoerce]
  | cons p rest ih =>
    by_cases h : p.1 = c
    · simp [coerceRow, getCol, List.find?, h]
    · simpa [coerceRow, getCol, List.find?, h] using ih

lemma getCol_coerceRow_other (c c2 : String) (h : c2 ≠ c) :
    ∀ r : Record, getCol (coerceRow c r) c2 = getCol r c2 := by
  intro r
  induction r with
  | nil => simp [coerceRow, getCol]
  | cons p rest ih =>
    obtain ⟨c1, v⟩ := p
    by_cases hp : c1 = c
    · have hne : ¬ (c = c2) := fun he => h he.symm
      simpa [coerceRow, getCol, List.find?, hp, hne] using ih
    · by_cases hp2 : c1 = c2
      · simp [coerceRow, getCol, List.find?, hp, hp2, h]
      · simpa [coerceRow, getCol, List.find?, hp, hp2] using ih

/-- C4 (amended): coercing a column keeps every record — the row count is
unchanged, a cell of the coerced column that holds a non-numeric token
becomes the missing marker while every other column keeps its value — and
downstream size groupings account for exactly the records whose grouping
key misses nothing; a grouping keyed on the coerced column therefore drops
the coerced record instead of accounting for it. -/
theorem C4_coercion_retains_records (df : DataFrame) (c : String) :
    (coerceColumn df c).rows.length = df.rows.length
  ∧ (∀ r : Record, getCol (coerceRow c r) c = toNumericCoerce (getCol r c))
  ∧ (∀ (r : Record) (c2 : String), c2 ≠ c →
      getCol (coerceRow c r) c2 = getCol r c2)
  ∧ (∀ s : String, parseIntString s.data = none →
      toNumericCoerce (Value.str s) = Value.na)
  ∧ (∀ (rows : List Record) (gcols : List String),
      ((groupbySize rows gcols).map (fun p => p.2)).sum
        = (rows.filter (fun r => !(hasNaKey r gcols))).length) := by
  refine ⟨by simp [coerceColumn], getCol_coerceRow_same c,
    fun r c2 h => getCol_coerceRow_other c c2 h r,
    fun s hs => by simp [toNumericCoerce, hs],
    fun rows gcols => sum_counts_groupbySize rows gcols⟩

theorem C4_coercion_retains_records_witness :
    getCol (coerceRow "Week_Reported" exWnvRow) "County" = getCol exWnvRow "County"
      ∧ toNumericCoerce (Value.str "N/A") = Value.na :=
  ⟨(C4_coercion_retains_records exWnv "Week_Reported").2.2.1 exWnvRow "County"
      (by decide),
   (C4_coercion_retains_records exWnv "Week_Reported").2.2.2.1 "N/A" (by decide)⟩

/-- C4 fails as stated: the non-numeric week token is coerced to the missing
marker and the record stays in the dataset (same row count, same county
value), yet the weekly grouping of Ex6.py keyed on (County, Week_Reported)
produces no entry at all — the record is not accounted for downstream. -/
theorem C4_counterexample :
    (coerceColumn exWnv "Week_Reported").rows.length = exWnv.rows.length
  ∧ getCol (coerceRow "Week_Reported" exWnvRow) "Week_Reported" = Value.na
  ∧ groupbySum (coerceColumn exWnv "Week_Reported").rows
      ["County", "Week_Reported"] "Positive_Cases" = [] := by
  decide

lemma find_eq_self {β : Type} [DecidableEq β] (d : List β) (k : β) :
    d.find? (fun x => x = k) = if k ∈ d then some k else none := by
  induction d with
  | nil => simp
  | cons a as ih =>
    by_cases h : a = k
    · subst h
      simp [List.find?]
    · have hka : ¬ k = a := fun he => h he.symm
      simp [List.find?, h, ih, List.mem_cons, hka]

lemma lookup_groupbySize (rows : List Record) (gcols : List String)
    (k : List Value) :
    lookup (groupbySize rows gcols) k =
      if k ∈ (rows.filter (fun r => !(hasNaKey r gcols))).map
          (fun r => keyTuple r gcols) then
        some ((rows.filter (fun r => !(hasNaKey r gcols))).filter
          (fun r => keyTuple r gcols = k)).length
      else none := by
  unfold lookup groupbySize
  rw [List.find?_map]
  have hcomp : ((fun p : List Value × Nat => decide (p.1 = k)) ∘
      (fun k2 => (k2, ((rows.filter (fun r => !(hasNaKey r gcols))).filter
        (fun r => keyTuple r gcols = k2)).length)))
      = fun x => decide (x = k) := rfl
  rw [hcomp, find_eq_self]
  by_cases h : k ∈ (rows.filter (fun r => !(hasNaKey r gcols))).map
      (fun r => keyTuple r gcols)
  · simp [List.mem_dedup, h]
  · simp [List.mem_dedup, h]

/-- C6 (amended): looking up a grouping-key tuple that occurs in the view
and contains no missing value returns a present count of at least 1; a key
tuple occurring in no view record is absent; every present count is at
least 1, never a zero disguised as presence.  (A key containing the missing
marker is dropped by the grouping, so its lookup is absent even though the
key occurs in the view.) -/
theorem C6_lookup_semantics (rows : List Record) (gcols : List String)
    (k : List Value) :
    (∀ r ∈ rows, keyTuple r gcols = k → hasNaKey r gcols = false →
        ∃ n : Nat, lookup (groupbySize rows gcols) k = some n ∧ 1 ≤ n)
  ∧ ((∀ r ∈ rows, keyTuple r gcols ≠ k) →
        lookup (groupbySize rows gcols) k = none)
  ∧ (∀ n : Nat, lookup (groupbySize rows gcols) k = some n → 1 ≤ n) := by
  refine ⟨fun r hr hk hna => ?_, fun hall => ?_, fun n hn => ?_⟩
  · have hfil : r ∈ rows.filter (fun r => !(hasNaKey r gcols)) :=
      List.mem_filter.mpr ⟨hr, by simp [hna]⟩
    have hmem : k ∈ (rows.filter (fun r => !(hasNaKey r gcols))).map
        (fun r => keyTuple r gcols) := List.mem_map.mpr ⟨r, hfil, hk⟩
    refine ⟨((rows.filter (fun r => !(hasNaKey r gcols))).filter
      (fun r => keyTuple r gcols = k)).length, ?_, ?_⟩
    · rw [lookup_groupbySize, if_pos hmem]
    · exact List.length_pos_of_mem (List.mem_filter.mpr ⟨hfil, by simp [hk]⟩)
  · rw [lookup_groupbySize, if_neg]
    intro hmem
    obtain ⟨r, hrf, hk⟩ := List.mem_map.mp hmem
    exact hall r (List.mem_filter.mp hrf).1 hk
  · rw [lookup_groupbySize] at hn
    by_cases hmem : k ∈ (rows.filter (fun r => !(hasNaKey r gcols))).map
        (fun r => keyTuple r gcols)
    · rw [if_pos hmem] at hn
      obtain ⟨r, hrf, hk⟩ := List.mem_map.mp hmem
      have hpos : 0 < ((rows.filter (fun r => !(hasNaKey r gcols))).filter
          (fun r => keyTuple r gcols = k)).length :=
        List.length_pos_of_mem (List.mem_filter.mpr ⟨hrf, by simp [hk]⟩)
      injection hn with h2
      omega
    · rw [if_neg hmem] at hn
      cases hn

theorem C6_lookup_semantics_witness :
    ∃ n : Nat,
      lookup (groupbySize exOlympics.rows ["Year"]) [Value.int 2002] = some n
        ∧ 1 ≤ n :=
  (C6_lookup_semantics exOlympics.rows ["Year"] [Value.int 2002]).1
    (olymRec 2002 "USA" "Gold") (by decide) (by decide) (by decide)

/-- C6 fails as stated: after the Ex6.py coercion the key tuple holding the
missing week value occurs in the view, yet its lookup in the size aggregate
is absent — the grouping dropped it. -/
theorem C6_counterexample :
    (∃ r ∈ (applyFilters (coerceColumn exWnv "Week_Reported") []).rows,
        keyTuple r ["Week_Reported"] = [Value.na])
  ∧ lookup (groupbySize
      (applyFilters (coerceColumn exWnv "Week_Reported") []).rows
      ["Week_Reported"]) [Value.na] = none := by
  decide

/-- The required-column set of Ex6.py line 13. -/
def requiredCols : List String :=
  ["Year", "Week_Reported", "County", "id", "Positive_Cases"]

inductive LoadError where
  | dataUnavailable
  | schemaMismatch (missing : List String)
deriving DecidableEq, Repr

/-- `pd.read_csv` on a resource that is either absent (the read raises,
ex2.py load_data propagates it) or yields a frame. -/
def loadResource (res : Option DataFrame) : Except LoadError DataFrame :=
  match res with
  | none => Except.error LoadError.dataUnavailable
  | some df => Except.ok df

/-- The `required_cols.issubset(df.columns)` check of Ex6.py lines 13-16;
`st.error` followed by `st.stop` aborts the script, embedded as an error
result carrying the missing columns. -/
def checkSchema (req : List String) (df : DataFrame) :
    Except LoadError DataFrame :=
  if req.all (fun c => df.cols.contains c) then Except.ok df
  else Except.error (LoadError.schemaMismatch
    (req.filter (fun c => !(df.cols.contains c))))

structure Ex6Output where
  county_agg : List (List Value × Int)
  weekly_agg : List (List Value × Int)
deriving DecidableEq, Repr

/-- The Ex6.py pipeline in order: load, schema check, week coercion, year
equality filter, county sum aggregate, county membership filter, weekly sum
aggregate.  Filtering and aggregation are reached only after both load and
schema check succeed. -/
def ex6Pipeline (res : Option DataFrame) (selYear : Int)
    (selCounties : List Value) : Except LoadError Ex6Output :=
  match loadResource res with
  | Except.error e => Except.error e
  | Except.ok df0 =>
    match checkSchema requiredCols df0 with
    | Except.error e => Except.error e
    | Except.ok df1 =>
      let df := coerceColumn df1 "Week_Reported"
      let year_df := applyFilters df [FilterSpec.member "Year" [Value.int selYear]]
      let line_df := applyFilters year_df [FilterSpec.member "County" selCounties]
      Except.ok
        { county_agg := groupbySum year_df.rows ["id"] "Positive_Cases"
          weekly_agg := groupbySum line_df.rows ["County", "Week_Reported"]
            "Positive_Cases" }

/-- C5: an unavailable resource or a missing required column makes the
pipeline fail at load time with the corresponding error; the error result
is produced before any filtering or aggregation, so neither runs on a
dataset that failed the check. -/
theorem C5_load_failures_are_fatal (res : Option DataFrame) (y : Int)
    (cs : List Value) :
    (res = none →
        ex6Pipeline res y cs = Except.error LoadError.dataUnavailable)
  ∧ (∀ df : DataFrame, res = some df →
        requiredCols.all (fun c => df.cols.contains c) = false →
        ex6Pipeline res y cs = Except.error (LoadError.schemaMismatch
          (requiredCols.filter (fun c => !(df.cols.contains c))))) := by
  constructor
  · intro h
    subst h
    rfl
  · intro df h hmiss
    subst h
    have hcond : (requiredCols.all fun c => df.cols.contains c) ≠ true := by
      rw [hmiss]
      exact Bool.false_ne_true
    simp only [ex6Pipeline, loadResource, checkSchema, if_neg hcond]

def exBadFrame : DataFrame := { cols := ["Year", "County"], rows := [] }

theorem C5_load_failures_are_fatal_witness :
    ex6Pipeline none 2004 [] = Except.error LoadError.dataUnavailable
  ∧ ex6Pipeline (some exBadFrame) 2004 []
      = Except.error (LoadError.schemaMismatch
          (requiredCols.filter (fun c => !(exBadFrame.cols.contains c)))) :=
  ⟨(C5_load_failures_are_fatal none 2004 []).1 rfl,
   (C5_load_failures_are_fatal (some exBadFrame) 2004 []).2 exBadFrame rfl
     (by decide)⟩

/-- Modelled after the `@st.cache_data` (DV_class.py line 271) and
`@st.cache` (ex4.py line 16) decorators: `load_data` is memoized for the
process lifetime; the cell holds the cached frame and the underlying read
of a fixed resource is deterministic. -/
def cachedLoad (resource : DataFrame) :
    Option DataFrame → DataFrame × Option DataFrame
  | some cached => (cached, some cached)
  | none => (resource, some resource)

/-- C7: loading twice returns contents equal to a single load and leaves
the cache cell unchanged after the first call; the first load returns the
resource itself. -/
theorem C7_load_idempotent_cache_stable (resource : DataFrame)
    (c0 : Option DataFrame) :
    (cachedLoad resource ((cachedLoad resource c0).2)).1
        = (cachedLoad resource c0).1
  ∧ (cachedLoad resource ((cachedLoad resource c0).2)).2
        = (cachedLoad resource c0).2
  ∧ (cachedLoad resource none).1 = resource := by
  cases c0 <;> exact ⟨rfl, rfl, rfl⟩

/-- The full-state-name to postal-abbreviation table of ex3.py. -/
def state_to_abbrev : List (String × String) :=
  [("Alabama", "AL"), ("Alaska", "AK"), ("Arizona", "AZ"), ("Arkansas", "AR"),
   ("California", "CA"), ("Colorado", "CO"), ("Connecticut", "CT"),
   ("Delaware", "DE"), ("Florida", "FL"), ("Georgia", "GA"), ("Hawaii", "HI"),
   ("Idaho", "ID"), ("Illinois", "IL"), ("Indiana", "IN"), ("Iowa", "IA"),
   ("Kansas", "KS"), ("Kentucky", "KY"), ("Louisiana", "LA"), ("Maine", "ME"),
   ("Maryland", "MD"), ("Massachusetts", "MA"), ("Michigan", "MI"),
   ("Minnesota", "MN"), ("Mississippi", "MS"), ("Missouri", "MO"),
   ("Montana", "MT"), ("Nebraska", "NE"), ("Nevada", "NV"),
   ("New Hampshire", "NH"), ("New Jersey", "NJ"), ("New Mexico", "NM"),
   ("New York", "NY"), ("North Carolina", "NC"), ("North Dakota", "ND"),
   ("Ohio", "OH"), ("Oklahoma", "OK"), ("Oregon", "OR"),
   ("Pennsylvania", "PA"), ("Rhode Island", "RI"), ("South Carolina", "SC"),
   ("South Dakota", "SD"), ("Tennessee", "TN"), ("Texas", "TX"),
   ("Utah", "UT"), ("Vermont", "VT"), ("Virginia", "VA"),
   ("Washington", "WA"), ("West Virginia", "WV"), ("Wisconsin", "WI"),
   ("Wyoming", "WY")]

/-- `Series.map(state_to_abbrev)` on one cell: the mapped abbreviation, or
the missing marker for a value outside the mapping. -/
def mapAbbrev (v : Value) : Value :=
  match v with
  | Value.str s =>
    match state_to_abbrev.find? (fun p => p.1 = s) with
    | some p => Value.str p.2
    | none => Value.na
  | _ => Value.na

/-- ex3.py line 40: `df["state_abbrev"] = df["State"].map(state_to_abbrev)`
adds the derived column to the loaded frame. -/
def addStateAbbrev (df : DataFrame) : DataFrame :=
  { cols := df.cols ++ ["state_abbrev"]
    rows := df.rows.map (fun r =>
      r ++ [("state_abbrev", mapAbbrev (getCol r "State"))]) }

lemma getCol_append_single (c c2 : String) (v : Value) (h : c ≠ c2) :
    ∀ r : Record, getCol (r ++ [(c2, v)]) c = getCol r c := by
  intro r
  induction r with
  | nil =>
    have hne : ¬ (c2 = c) := fun he => h he.symm
    simp [getCol, List.find?, hne]
  | cons p rest ih =>
    obtain ⟨c1, w⟩ := p
    by_cases hp : c1 = c
    · simp [getCol, List.find?, hp]
    · simpa [getCol, List.find?, hp] using ih

/-- The one-row CO2/population frame of ex3.py used to exhibit the
post-load column addition. -/
def exCo2 : DataFrame :=
  { cols := ["State", "Sector", "Year", "Value"]
    rows := [[("State", Value.str "California"),
              ("Sector", Value.str "Population"),
              ("Year", Value.int 2000), ("Value", Value.int 33871648)]] }

/-- C8 (amended): the loaded frame is extended exactly once, by the derived
state_abbrev column of ex3.py: the row count is unchanged, every column
other than state_abbrev keeps its value in every row, the column list only
gains state_abbrev at its end, and each extended row is the original row
with the mapped abbreviation appended; the filter and aggregation
operations construct new values and leave their input unchanged, but the
original claim that no new column is ever added after load fails. -/
theorem C8_dataset_extended_once (df : DataFrame) :
    (addStateAbbrev df).rows.length = df.rows.length
  ∧ (addStateAbbrev df).cols = df.cols ++ ["state_abbrev"]
  ∧ (∀ (r : Record) (c : String), c ≠ "state_abbrev" →
      getCol (r ++ [("state_abbrev", mapAbbrev (getCol r "State"))]) c
        = getCol r c)
  ∧ (∀ r ∈ df.rows,
      (r ++ [("state_abbrev", mapAbbrev (getCol r "State"))])
        ∈ (addStateAbbrev df).rows) := by
  refine ⟨by simp [addStateAbbrev], rfl,
    fun r c h => getCol_append_single c "state_abbrev" _ h r,
    fun r hr => List.mem_map_of_mem _ hr⟩

theorem C8_dataset_extended_once_witness :
    getCol ((exCo2.rows.headD []) ++
        [("state_abbrev", mapAbbrev (getCol (exCo2.rows.headD []) "State"))])
      "State" = getCol (exCo2.rows.headD []) "State" :=
  (C8_dataset_extended_once exCo2).2.2.1 (exCo2.rows.headD []) "State"
    (by decide)

/-- C8 fails as stated: ex3.py mutates the loaded frame after load by
adding the state_abbrev column — the frame is no longer identical and a new
column appears. -/
theorem C8_counterexample :
    addStateAbbrev exCo2 ≠ exCo2
  ∧ "state_abbrev" ∈ (addStateAbbrev exCo2).cols
  ∧ "state_abbrev" ∉ exCo2.cols := by
  decide

/-- The directed dominance graph of ex4.py with networkx DiGraph insertion
semantics: adding an existing node is a no-op; adding an edge inserts any
missing endpoint and collapses parallel (source, target) pairs (re-adding
only updates the weight attribute, which does not affect degrees). -/
structure DiGraph where
  nodes : List Value
  edges : List (Value × Value)
deriving DecidableEq, Repr

def addNode (G : DiGraph) (v : Value) : DiGraph :=
  if v ∈ G.nodes then G else { G with nodes := G.nodes ++ [v] }

def addEdge (G : DiGraph) (s t : Value) : DiGraph :=
  if (s, t) ∈ (addNode (addNode G s) t).edges then addNode (addNode G s) t
  else { nodes := (addNode (addNode G s) t).nodes
         edges := (addNode (addNode G s) t).edges ++ [(s, t)] }

/-- ex4.py lines 31-44: one node per age-table row, then one directed edge
per edge-list row. -/
def buildGraph (ageRows edgeRows : List Record) : DiGraph :=
  let G0 := ageRows.foldl (fun G r => addNode G (getCol r "Sheep_ID"))
    { nodes := [], edges := [] }
  edgeRows.foldl (fun G r =>
    addEdge G (getCol r "Source_Sheep_ID") (getCol r "Target_Sheep_ID")) G0

def inDegree (G : DiGraph) (v : Value) : Nat :=
  (G.edges.filter (fun e => e.2 = v)).length

def outDegree (G : DiGraph) (v : Value) : Nat :=
  (G.edges.filter (fun e => e.1 = v)).length

/-- `nx.set_node_attributes(G, dict(G.in_degree()), "in_degree")`: one
attribute entry for every node of the graph. -/
def inDegreeAttrs (G : DiGraph) : List (Value × Nat) :=
  G.nodes.map (fun v => (v, inDegree G v))

def outDegreeAttrs (G : DiGraph) : List (Value × Nat) :=
  G.nodes.map (fun v => (v, outDegree G v))

/-- Construction invariant: duplicate-free node and edge lists, every edge
endpoint a node. -/
def GraphInv (G : DiGraph) : Prop :=
  G.nodes.Nodup ∧ G.edges.Nodup ∧
    ∀ e ∈ G.edges, e.1 ∈ G.nodes ∧ e.2 ∈ G.nodes

lemma mem_addNode_self (G : DiGraph) (v : Value) : v ∈ (addNode G v).nodes := by
  unfold addNode
  by_cases h : v ∈ G.nodes <;> simp [h]

lemma mem_addNode_mono (G : DiGraph) (v w : Value) (h : v ∈ G.nodes) :
    v ∈ (addNode G w).nodes := by
  unfold addNode
  by_cases hw : w ∈ G.nodes <;> simp [hw, h]

lemma graphInv_addNode (G : DiGraph) (v : Value) (h : GraphInv G) :
    GraphInv (addNode G v) := by
  obtain ⟨h1, h2, h3⟩ := h
  unfold addNode
  by_cases hv : v ∈ G.nodes
  · simpa [hv] using ⟨h1, h2, h3⟩
  · rw [if_neg hv]
    refine ⟨?_, h2, fun e he => ⟨List.mem_append_left _ (h3 e he).1,
      List.mem_append_left _ (h3 e he).2⟩⟩
    simp [List.nodup_append, h1, hv]

lemma graphInv_addEdge (G : DiGraph) (s t : Value) (h : GraphInv G) :
    GraphInv (addEdge G s t) := by
  have hG1 : GraphInv (addNode (addNode G s) t) :=
    graphInv_addNode _ _ (graphInv_addNode _ _ h)
  have hs : s ∈ (addNode (addNode G s) t).nodes :=
    mem_addNode_mono _ _ _ (mem_addNode_self G s)
  have ht : t ∈ (addNode (addNode G s) t).nodes :=
    mem_addNode_self (addNode G s) t
  unfold addEdge
  by_cases he : (s, t) ∈ (addNode (addNode G s) t).edges
  · simpa [he] using hG1
  · rw [if_neg he]
    obtain ⟨g1, g2, g3⟩ := hG1
    refine ⟨g1, by simp [List.nodup_append, g2, he], fun e hme => ?_⟩
    rcases List.mem_append.mp hme with hin | hin
    · exact g3 e hin
    · rcases List.mem_singleton.mp hin with rfl
      exact ⟨hs, ht⟩

lemma foldl_preserves {α : Type} {P : DiGraph → Prop} (f : DiGraph → α → DiGraph)
    (hf : ∀ G x, P G → P (f G x)) :
    ∀ (l : List α) (G : DiGraph), P G → P (l.foldl f G) := by
  intro l
  induction l with
  | nil => intro G h; exact h
  | cons x xs ih => intro G h; exact ih (f G x) (hf G x h)

lemma graphInv_buildGraph (ageRows edgeRows : List Record) :
    GraphInv (buildGraph ageRows edgeRows) := by
  unfold buildGraph
  apply foldl_preserves _ (fun G r h => graphInv_addEdge G _ _ h)
  apply foldl_preserves _ (fun G r h => graphInv_addNode G _ h)
  exact ⟨List.nodup_nil, List.nodup_nil,
    fun e he => absurd he (List.not_mem_nil e)⟩

/-- C10: in the graph built from the age table and the edge list, every
node receives an in-degree and an out-degree attribute entry; the in-degree
attribute values sum to the number of (distinct, by construction) directed
edges of the graph, and so do the out-degree values. -/
theorem C10_degree_attrs_and_sums (ageRows edgeRows : List Record) :
    (∀ v ∈ (buildGraph ageRows edgeRows).nodes,
        (v, inDegree (buildGraph ageRows edgeRows) v)
            ∈ inDegreeAttrs (buildGraph ageRows edgeRows)
      ∧ (v, outDegree (buildGraph ageRows edgeRows) v)
            ∈ outDegreeAttrs (buildGraph ageRows edgeRows))
  ∧ ((inDegreeAttrs (buildGraph ageRows edgeRows)).map (fun p => p.2)).sum
      = (buildGraph ageRows edgeRows).edges.length
  ∧ ((outDegreeAttrs (buildGraph ageRows edgeRows)).map (fun p => p.2)).sum
      = (buildGraph ageRows edgeRows).edges.length
  ∧ (buildGraph ageRows edgeRows).edges.Nodup := by
  obtain ⟨hnd, hend, hin⟩ := graphInv_buildGraph ageRows edgeRows
  refine ⟨fun v hv => ⟨List.mem_map_of_mem _ hv, List.mem_map_of_mem _ hv⟩,
    ?_, ?_, hend⟩
  · unfold inDegreeAttrs
    rw [List.map_map]
    exact sum_filter_eq_lengths _ Prod.snd hnd _ (fun e he => (hin e he).2)
  · unfold outDegreeAttrs
    rw [List.map_map]
    exact sum_filter_eq_lengths _ Prod.fst hnd _ (fun e he => (hin e he).1)

/-- Sheep data with one edge endpoint (id 3) absent from the age table, as
networkx would add it implicitly. -/
def exAgeRows : List Record :=
  [[("Sheep_ID", Value.int 1), ("Sheep_Age", Value.int 4)],
   [("Sheep_ID", Value.int 2), ("Sheep_Age", Value.int 7)]]

def exEdgeRows : List Record :=
  [[("Source_Sheep_ID", Value.int 1), ("Target_Sheep_ID", Value.int 2),
    ("Weight", Value.int 3)],
   [("Source_Sheep_ID", Value.int 3), ("Target_Sheep_ID", Value.int 1),
    ("Weight", Value.int 2)]]

theorem C10_degree_attrs_and_sums_witness :
    (Value.int 2, inDegree (buildGraph exAgeRows exEdgeRows) (Value.int 2))
        ∈ inDegreeAttrs (buildGraph exAgeRows exEdgeRows)
  ∧ ((inDegreeAttrs (buildGraph exAgeRows exEdgeRows)).map
      (fun p => p.2)).sum = (buildGraph exAgeRows exEdgeRows).edges.length :=
  ⟨((C10_degree_attrs_and_sums exAgeRows exEdgeRows).1 (Value.int 2)
      (by decide)).1,
   (C10_degree_attrs_and_sums exAgeRows exEdgeRows).2.1⟩

section Tests

example : valueInRange (Value.int 5) 3 7 = true := by decide

example : passes [("Year", Value.int 2002)] (FilterSpec.range "Year" 2002 2002) = true := by
  decide

example :
    groupbySize [[("Y", Value.int 1)], [("Y", Value.int 1)], [("Y", Value.int 2)]] ["Y"] =
      [([Value.int 1], 2), ([Value.int 2], 1)] := by
  decide

example : groupbySize [[("Y", Value.na)]] ["Y"] = [] := by decide

end Tests
